import Mathlib

/-!
Shallow embedding of the request dispatcher from src/src/index.ts of the
remote-googlemap-mcp repository: an Express HTTP handler on POST /mcp that
resolves a session from the mcp-session-id header, routes on a JSON-RPC-like
method name (initialize, callTool, terminate), validates tool parameters with
two zod schemas, delegates to the Google Maps client (modelled as an external
provider oracle) and reshapes results into a fixed envelope.  Numbers are
modelled as rationals, JSON values as an inductive JSValue, thrown JS values
as JsThrown (an Error with a message, or any non-Error value).
-/

namespace GmapsMcp

/-- A JSON-ish JavaScript value as it appears in request bodies.  `undef`
models the JavaScript undefined value (an absent field reads as undefined). -/
inductive JSValue where
  | undef
  | null
  | bool (b : Bool)
  | num (q : ℚ)
  | str (s : String)
  | arr (elems : List JSValue)
  | obj (fields : List (String × JSValue))

/-- First-match association-list lookup; missing key or non-object base reads
as undefined, matching JavaScript property access on the values the handler
destructures (primitives box to objects without these properties). -/
def jsGetField : JSValue → String → JSValue
  | .obj fields, key => lookupField fields key
  | _, _ => .undef
where lookupField : List (String × JSValue) → String → JSValue
  | [], _ => .undef
  | (k, v) :: rest, key => if k = key then v else lookupField rest key

/-- String conversion as used by a template literal.  Number, array and
object formatting are abbreviated (no claim evaluates them); strings, null,
undefined and booleans are exact. -/
def jsToString : JSValue → String
  | .undef => "undefined"
  | .null => "null"
  | .bool b => if b then "true" else "false"
  | .num q => if q.den = 1 then toString q.num else toString q
  | .str s => s
  | .arr _ => "[array]"
  | .obj _ => "[object Object]"

/-- A thrown JavaScript value: either an Error instance carrying a message,
or any other value (the catch block distinguishes exactly these two cases). -/
inductive JsThrown where
  | error (message : String)
  | other

/-- The message the catch block extracts:
`error instanceof Error ? error.message : 'Internal server error'`. -/
def jsErrorMessage : JsThrown → String
  | .error m => m
  | .other => "Internal server error"

/-! ### Zod schemas as data (the schema values embedded in tool descriptors) -/

/-- A zod schema value, as built by the schema expressions in the source
(z.string(), z.number(), z.object, .optional(), .describe()). -/
inductive Zod where
  | str
  | num
  | obj (fields : List (String × Zod))
  | optional (inner : Zod)
  | described (inner : Zod) (desc : String)

/-- geocodeSchema = z.object({ address: z.string().describe(...) }) -/
def geocodeSchema : Zod :=
  .obj [("address", .described .str "The address to geocode")]

/-- placesSearchSchema = z.object({ query, location (optional object), radius (optional number) }) -/
def placesSearchSchema : Zod :=
  .obj
    [ ("query", .described .str "The search query"),
      ("location", .described
        (.optional (.obj
          [ ("lat", .described .num "Latitude"),
            ("lng", .described .num "Longitude") ]))
        "Optional location to bias the search"),
      ("radius", .described (.optional .num) "Optional radius in meters") ]

/-! ### Zod parsing (the .parse calls in the two tool branches) -/

/-- One zod validation issue (path into the input and a message; message
texts abbreviate the zod originals, no claim depends on their wording). -/
structure ZodIssue where
  path : List String
  message : String

/-- Rendering of a ZodError message from its issues (abbreviated; zod
pretty-prints a JSON array of issues). -/
def renderZodIssues (issues : List ZodIssue) : String :=
  String.intercalate "; "
    (issues.map fun i => String.intercalate "." i.path ++ ": " ++ i.message)

/-- geocodeSchema.parse: the input must be a plain object whose address
field is a string (absent or undefined reads as missing; zod has no
non-emptiness check on z.string()).  Returns the parsed address. -/
def geocodeParse (v : JSValue) : Except (List ZodIssue) String :=
  match v with
  | .obj _ =>
    match jsGetField v "address" with
    | .undef => .error [⟨["address"], "Required"⟩]
    | .str s => .ok s
    | _ => .error [⟨["address"], "Expected string"⟩]
  | _ => .error [⟨[], "Expected object, received other"⟩]

/-- A latitude/longitude pair as parsed from the location sub-object. -/
structure LatLng where
  lat : ℚ
  lng : ℚ
deriving DecidableEq, Repr

/-- The typed output of placesSearchSchema.parse. -/
structure PlacesParams where
  query : String
  location : Option LatLng
  radius : Option ℚ
deriving DecidableEq, Repr

/-- Issues of a failed Except, empty list on success (zod collects issues
across all fields of an object before throwing). -/
def exceptIssues {α : Type} : Except (List ZodIssue) α → List ZodIssue
  | .ok _ => []
  | .error es => es

/-- Parse of the optional location sub-object: z.object({lat: z.number(),
lng: z.number()}), both fields collected in order. -/
def parseLatLng (v : JSValue) : Except (List ZodIssue) LatLng :=
  match v with
  | .obj _ =>
    let latR : Except (List ZodIssue) ℚ :=
      match jsGetField v "lat" with
      | .undef => .error [⟨["location", "lat"], "Required"⟩]
      | .num q => .ok q
      | _ => .error [⟨["location", "lat"], "Expected number"⟩]
    let lngR : Except (List ZodIssue) ℚ :=
      match jsGetField v "lng" with
      | .undef => .error [⟨["location", "lng"], "Required"⟩]
      | .num q => .ok q
      | _ => .error [⟨["location", "lng"], "Expected number"⟩]
    match latR, lngR with
    | .ok la, .ok ln => .ok ⟨la, ln⟩
    | _, _ => .error (exceptIssues latR ++ exceptIssues lngR)
  | _ => .error [⟨["location"], "Expected object, received other"⟩]

/-- placesSearchSchema.parse: query is a required string; location and
radius are optional (undefined passes as absent, any present value must
match its schema); issues from all three fields are collected in order. -/
def placesParse (v : JSValue) : Except (List ZodIssue) PlacesParams :=
  match v with
  | .obj _ =>
    let queryR : Except (List ZodIssue) String :=
      match jsGetField v "query" with
      | .undef => .error [⟨["query"], "Required"⟩]
      | .str s => .ok s
      | _ => .error [⟨["query"], "Expected string"⟩]
    let locR : Except (List ZodIssue) (Option LatLng) :=
      match jsGetField v "location" with
      | .undef => .ok none
      | lv => (parseLatLng lv).map some
    let radR : Except (List ZodIssue) (Option ℚ) :=
      match jsGetField v "radius" with
      | .undef => .ok none
      | .num q => .ok (some q)
      | _ => .error [⟨["radius"], "Expected number"⟩]
    match queryR, locR, radR with
    | .ok q, .ok l, .ok r => .ok ⟨q, l, r⟩
    | _, _, _ => .error (exceptIssues queryR ++ exceptIssues locR ++ exceptIssues radR)
  | _ => .error [⟨[], "Expected object, received other"⟩]

/-! ### Sessions -/

/-- A session record: `{ initialized: boolean }`. -/
structure Session where
  initialized : Bool
deriving DecidableEq, Repr

/-- The process-wide session store `sessions: Record<string, any>`,
modelled as an association list with unique keys maintained by setS. -/
def SessionMap : Type := List (String × Session)

/-- Property read `sessions[id]` (first binding wins). -/
def lookupS : SessionMap → String → Option Session
  | [], _ => none
  | (k, s) :: rest, key => if k = key then some s else lookupS rest key

/-- Property assignment `sessions[id] = s` (overwrites an existing binding,
otherwise appends). -/
def setS : SessionMap → String → Session → SessionMap
  | [], key, s => [(key, s)]
  | (k, s0) :: rest, key, s =>
      if k = key then (key, s) :: rest else (k, s0) :: setS rest key s

/-- Property deletion `delete sessions[id]`. -/
def delS (m : SessionMap) (key : String) : SessionMap :=
  m.filter fun kv => if kv.1 = key then false else true

/-! ### Provider (the Google Maps client, an external collaborator) -/

/-- One result of the geocoding capability, with the fields the handler
reads: formatted_address, geometry.location, place_id. -/
structure GeocodeResult where
  formatted_address : String
  geometry_location : LatLng
  place_id : String
deriving DecidableEq, Repr

/-- One nearby place, with the fields the handler projects; geometry (and
hence its location) may be absent, read with optional chaining. -/
structure Place where
  name : String
  geometry_location : Option LatLng
  place_id : String
  types : List String
  vicinity : String
deriving DecidableEq, Repr

/-- The argument object of client.geocode: `{ address, key }` where the key
is process.env.GOOGLE_MAPS_API_KEY (possibly undefined). -/
structure GeocodeCallParams where
  address : String
  key : Option String
deriving DecidableEq, Repr

/-- The argument object of client.placesNearby:
`{ location: location || {lat:0,lng:0}, radius: radius || 5000, keyword: query, key }`. -/
structure PlacesCallParams where
  location : LatLng
  radius : ℚ
  keyword : String
  key : Option String
deriving DecidableEq, Repr

/-- A recorded call to the external mapping provider. -/
inductive ProviderCall where
  | geocode (p : GeocodeCallParams)
  | placesNearby (p : PlacesCallParams)
deriving DecidableEq, Repr

/-- The provider oracle: each capability either returns its result list or
throws (network failure, rejected key, ...). -/
structure Provider where
  geocode : GeocodeCallParams → Except JsThrown (List GeocodeResult)
  placesNearby : PlacesCallParams → Except JsThrown (List Place)

/-! ### Requests, responses, envelopes -/

/-- The destructured request body `{ method, params, id }`.  All three are
arbitrary JSON values; id is echoed back unchanged. -/
structure MCPRequest where
  method : JSValue
  params : JSValue
  id : JSValue

/-- Per-request ambient inputs: the mcp-session-id header, the value
randomUUID() would return on this request, and the GOOGLE_MAPS_API_KEY
environment variable (read at call time). -/
structure Env where
  header : Option String
  freshUUID : String
  apiKey : Option String

/-- Server identity `{ name, version }` in the initialize result. -/
structure ServerInfo where
  name : String
  version : String
deriving DecidableEq, Repr

/-- A static tool descriptor `{ name, description, parameters }`. -/
structure ToolDescriptor where
  name : String
  description : String
  parameters : Zod

/-- The geocode tool descriptor from the initialize result. -/
def geocodeTool : ToolDescriptor :=
  ⟨"geocode", "Convert an address to coordinates", geocodeSchema⟩

/-- The places-search tool descriptor from the initialize result. -/
def placesSearchTool : ToolDescriptor :=
  ⟨"places-search", "Search for places using Google Places API", placesSearchSchema⟩

/-- One entry of a tool result content list: a `{type:'text'}` part, or a
`{type:'json'}` part holding the geocode payload or the places payload. -/
inductive ContentItem where
  | text (s : String)
  | geocodeData (location : LatLng) (formatted_address : String) (place_id : String)
  | placesData (data : List Place)

/-- A successful result payload, one constructor per res.json result shape
in the source. -/
inductive RpcResult where
  | initializeResult (server : ServerInfo) (sessionId : String) (tools : List ToolDescriptor)
  | toolContent (content : List ContentItem)
  | nullResult

/-- The body of the response envelope: exactly one of result or error. -/
inductive RpcBody where
  | result (r : RpcResult)
  | rpcError (code : ℤ) (message : String)

/-- The JSON response envelope `{ jsonrpc, result | error, id }`. -/
structure Envelope where
  jsonrpc : String
  body : RpcBody
  id : JSValue

/-- The observable outcome of one POST /mcp request: HTTP status, envelope,
the session store afterwards, and the provider calls issued. -/
structure HandlerOutput where
  status : Nat
  envelope : Envelope
  sessions : SessionMap
  calls : List ProviderCall

/-! ### The dispatcher -/

/-- Session id resolution:
`req.headers['mcp-session-id'] as string || randomUUID()` — the supplied
header is used whenever it is truthy (present and non-empty), otherwise a
fresh UUID is generated. -/
def resolveSessionId (env : Env) : String :=
  match env.header with
  | some h => if h = "" then env.freshUUID else h
  | none => env.freshUUID

/-- `if (!sessions[sessionId]) sessions[sessionId] = { initialized: false }` -/
def ensureSession (m : SessionMap) (sid : String) : SessionMap :=
  match lookupS m sid with
  | none => setS m sid ⟨false⟩
  | some _ => m

/-- `location || { lat: 0, lng: 0 }`: the parsed location is an object
(always truthy) or undefined (falsy). -/
def locationOrDefault : Option LatLng → LatLng
  | none => ⟨0, 0⟩
  | some l => l

/-- `radius || 5000`: undefined and 0 are falsy, every other parsed number
is truthy (NaN is not representable here; -0 coincides with 0). -/
def radiusOrDefault : Option ℚ → ℚ
  | none => 5000
  | some r => if r = 0 then 5000 else r

/-- The geocode branch after a successful parse: call the provider, then
`results[0]` must exist or Error('No results found') is thrown. -/
def geocodeBranch (env : Env) (prov : Provider) (address : String) :
    Except JsThrown RpcResult × List ProviderCall :=
  let call : GeocodeCallParams := ⟨address, env.apiKey⟩
  match prov.geocode call with
  | .error e => (.error e, [.geocode call])
  | .ok results =>
    match results with
    | [] => (.error (.error "No results found"), [.geocode call])
    | r :: _ =>
      (.ok (.toolContent
        [ .text ("Found location: " ++ r.formatted_address),
          .geocodeData r.geometry_location r.formatted_address r.place_id ]),
        [.geocode call])

/-- The places-search branch after a successful parse: call the provider
with defaulted location and radius, then summarise and project the results. -/
def placesBranch (env : Env) (prov : Provider) (p : PlacesParams) :
    Except JsThrown RpcResult × List ProviderCall :=
  let call : PlacesCallParams :=
    ⟨locationOrDefault p.location, radiusOrDefault p.radius, p.query, env.apiKey⟩
  match prov.placesNearby call with
  | .error e => (.error e, [.placesNearby call])
  | .ok results =>
    (.ok (.toolContent
      [ .text ("Found " ++ toString results.length ++ " places"),
        .placesData (results.map fun place =>
          ⟨place.name, place.geometry_location, place.place_id,
           place.types, place.vicinity⟩) ]),
      [.placesNearby call])

/-- The try-block body after session resolution: the branch over the method
name, returning either a result payload plus the updated session store, or
the thrown value; alongside, the provider calls issued. -/
def dispatch (env : Env) (prov : Provider) (sessions : SessionMap)
    (sessionId : String) (req : MCPRequest) :
    Except JsThrown (RpcResult × SessionMap) × List ProviderCall :=
  match req.method with
  | .str "initialize" =>
    (.ok (.initializeResult ⟨"google-maps-mcp", "1.0.0"⟩ sessionId
        [geocodeTool, placesSearchTool],
      setS sessions sessionId ⟨true⟩), [])
  | .str "callTool" =>
    match req.params with
    | .undef =>
      (.error (.error "Cannot destructure property of undefined params"), [])
    | .null =>
      (.error (.error "Cannot destructure property of null params"), [])
    | p =>
      let name := jsGetField p "name"
      let parameters := jsGetField p "parameters"
      match name with
      | .str "geocode" =>
        match geocodeParse parameters with
        | .error issues => (.error (.error (renderZodIssues issues)), [])
        | .ok address =>
          match geocodeBranch env prov address with
          | (.error e, calls) => (.error e, calls)
          | (.ok r, calls) => (.ok (r, sessions), calls)
      | .str "places-search" =>
        match placesParse parameters with
        | .error issues => (.error (.error (renderZodIssues issues)), [])
        | .ok pp =>
          match placesBranch env prov pp with
          | (.error e, calls) => (.error e, calls)
          | (.ok r, calls) => (.ok (r, sessions), calls)
      | other => (.error (.error ("Unknown tool: " ++ jsToString other)), [])
  | .str "terminate" =>
    (.ok (.nullResult, delS sessions sessionId), [])
  | m => (.error (.error ("Unknown method: " ++ jsToString m)), [])

/-- The whole POST /mcp handler: resolve the session, run the dispatch
inside try, and convert any thrown value into the fixed error envelope
(code -32603, HTTP 500); successes are sent with HTTP 200. -/
def handleMcp (env : Env) (prov : Provider) (sessions : SessionMap)
    (req : MCPRequest) : HandlerOutput :=
  let sid := resolveSessionId env
  let s1 := ensureSession sessions sid
  match dispatch env prov s1 sid req with
  | (.ok (r, s2), calls) =>
    ⟨200, ⟨"2.0", .result r, req.id⟩, s2, calls⟩
  | (.error e, calls) =>
    ⟨500, ⟨"2.0", .rpcError (-32603) (jsErrorMessage e), req.id⟩, s1, calls⟩

/-- A provider whose capabilities always throw a non-Error value; used only
to instantiate theorems whose conclusions do not depend on provider output. -/
def noProvider : Provider :=
  ⟨fun _ => .error .other, fun _ => .error .other⟩

/-! ### Session-store lemmas -/

theorem lookupS_setS_self (m : SessionMap) (k : String) (s : Session) :
    lookupS (setS m k s) k = some s := by
  induction m with
  | nil => simp [setS, lookupS]
  | cons kv rest ih =>
    obtain ⟨k0, s0⟩ := kv
    by_cases hk : k0 = k
    · simp [setS, hk, lookupS]
    · simp [setS, hk, lookupS, ih]

theorem lookupS_delS_self (m : SessionMap) (k : String) :
    lookupS (delS m k) k = none := by
  induction m with
  | nil => simp [delS, lookupS]
  | cons kv rest ih =>
    obtain ⟨k0, s0⟩ := kv
    by_cases hk : k0 = k
    · simpa [delS, hk] using ih
    · simpa [delS, hk, lookupS] using ih

/-! ### Claim theorems -/

/-- C1: every request to /mcp either succeeds with HTTP 200 and a result
body, or the dispatch threw some value e, and the response is HTTP 500 with
the fixed error envelope: code -32603 and message jsErrorMessage e (the
thrown Error message when available, otherwise the generic
"Internal server error" fallback).  Nothing escapes the boundary: every
input falls into one of the two cases. -/
theorem mcp_catch_all (env : Env) (prov : Provider) (m : SessionMap)
    (req : MCPRequest) :
    ((handleMcp env prov m req).status = 200 ∧
      ∃ r, (handleMcp env prov m req).envelope.body = .result r) ∨
    ((handleMcp env prov m req).status = 500 ∧
      ∃ e, (dispatch env prov (ensureSession m (resolveSessionId env))
              (resolveSessionId env) req).1 = .error e ∧
        (handleMcp env prov m req).envelope.body =
          .rpcError (-32603) (jsErrorMessage e)) := by
  rcases hd : dispatch env prov (ensureSession m (resolveSessionId env))
      (resolveSessionId env) req with ⟨res, calls⟩
  cases res with
  | ok v =>
    left
    simp [handleMcp, hd]
  | error e =>
    right
    refine ⟨by simp [handleMcp, hd], e, by simp [hd], by simp [handleMcp, hd]⟩

/-- C4: the id of the response envelope always equals the id of the request,
on the result path and on the error path alike (including absent or null
ids, which are just JSValue.undef and JSValue.null here). -/
theorem mcp_id_echo (env : Env) (prov : Provider) (m : SessionMap)
    (req : MCPRequest) :
    (handleMcp env prov m req).envelope.id = req.id := by
  rcases hd : dispatch env prov (ensureSession m (resolveSessionId env))
      (resolveSessionId env) req with ⟨res, calls⟩
  cases res with
  | ok v => simp [handleMcp, hd]
  | error e => simp [handleMcp, hd]

/-- C8: every initialize request, whatever the prior session history,
answers HTTP 200 with the server identity google-maps-mcp 1.0.0, the
resolved session id, and exactly the two static tool descriptors; and the
resolved session record afterwards has initialized = true. -/
theorem initialize_result (env : Env) (prov : Provider) (m : SessionMap)
    (pv i : JSValue) :
    (handleMcp env prov m ⟨.str "initialize", pv, i⟩).status = 200 ∧
    (handleMcp env prov m ⟨.str "initialize", pv, i⟩).envelope.body =
      .result (.initializeResult ⟨"google-maps-mcp", "1.0.0"⟩
        (resolveSessionId env) [geocodeTool, placesSearchTool]) ∧
    lookupS (handleMcp env prov m ⟨.str "initialize", pv, i⟩).sessions
      (resolveSessionId env) = some ⟨true⟩ := by
  refine ⟨?_, ?_, ?_⟩ <;>
    simp [handleMcp, dispatch, lookupS_setS_self]

/-- C7: every terminate request answers HTTP 200 with a null result and
leaves no session record under the resolved id; running a second terminate
for the same environment on the resulting store again answers 200 with a
null result (so terminating twice in a row, or terminating a token that
never had a session, does not error: resolution recreates a record before
the delete). -/
theorem terminate_removes (env : Env) (prov : Provider) (m : SessionMap)
    (pv i : JSValue) :
    (handleMcp env prov m ⟨.str "terminate", pv, i⟩).status = 200 ∧
    (handleMcp env prov m ⟨.str "terminate", pv, i⟩).envelope.body =
      .result .nullResult ∧
    lookupS (handleMcp env prov m ⟨.str "terminate", pv, i⟩).sessions
      (resolveSessionId env) = none ∧
    (handleMcp env prov
        (handleMcp env prov m ⟨.str "terminate", pv, i⟩).sessions
        ⟨.str "terminate", pv, i⟩).status = 200 ∧
    (handleMcp env prov
        (handleMcp env prov m ⟨.str "terminate", pv, i⟩).sessions
        ⟨.str "terminate", pv, i⟩).envelope.body = .result .nullResult := by
  refine ⟨?_, ?_, ?_, ?_, ?_⟩ <;>
    simp [handleMcp, dispatch, lookupS_delS_self]

/-- C2 counterexample: with an empty store, a request supplying the unknown
header token "ghost" resolves to "ghost" itself — not to the generated
UUID "fresh-uuid-1" — and the fresh record (then the initialized one) is
created under the supplied token, while nothing is ever stored under the
generated token.  This refutes the claim that an unknown caller-supplied
token is replaced by a generated one. -/
theorem session_token_counterexample :
    lookupS ([] : SessionMap) "ghost" = none ∧
    resolveSessionId ⟨some "ghost", "fresh-uuid-1", none⟩ = "ghost" ∧
    ("ghost" : String) ≠ "fresh-uuid-1" ∧
    (handleMcp ⟨some "ghost", "fresh-uuid-1", none⟩ noProvider []
        ⟨.str "initialize", .null, .null⟩).envelope.body =
      .result (.initializeResult ⟨"google-maps-mcp", "1.0.0"⟩ "ghost"
        [geocodeTool, placesSearchTool]) ∧
    lookupS (handleMcp ⟨some "ghost", "fresh-uuid-1", none⟩ noProvider []
        ⟨.str "initialize", .null, .null⟩).sessions "ghost" = some ⟨true⟩ ∧
    lookupS (handleMcp ⟨some "ghost", "fresh-uuid-1", none⟩ noProvider []
        ⟨.str "initialize", .null, .null⟩).sessions "fresh-uuid-1" = none := by
  refine ⟨rfl, rfl, by decide, rfl, rfl, rfl⟩

/-- C2 amended: a new unique token is generated only when the session header
is absent or empty; a supplied non-empty token is used as the session id
whether or not it is known.  Whenever the resolved id (supplied or
generated) has no session record, a fresh record with initialized = false
is created under that resolved id; a known record is left untouched. -/
theorem session_resolution (env : Env) (m : SessionMap) :
    (env.header = none → resolveSessionId env = env.freshUUID) ∧
    (env.header = some "" → resolveSessionId env = env.freshUUID) ∧
    (∀ h, env.header = some h → h ≠ "" → resolveSessionId env = h) ∧
    (lookupS m (resolveSessionId env) = none →
      lookupS (ensureSession m (resolveSessionId env)) (resolveSessionId env)
        = some ⟨false⟩) ∧
    (∀ s, lookupS m (resolveSessionId env) = some s →
      ensureSession m (resolveSessionId env) = m) := by
  refine ⟨?_, ?_, ?_, ?_, ?_⟩
  · intro h; simp [resolveSessionId, h]
  · intro h; simp [resolveSessionId, h]
  · intro h hh hne; simp [resolveSessionId, hh, hne]
  · intro h; simp [ensureSession, h, lookupS_setS_self]
  · intro s h; simp [ensureSession, h]

/-- Witness for session_resolution at concrete inputs: absent and empty
headers generate, a supplied token is used, an unknown resolved id gets a
fresh uninitialized record, a known one is untouched. -/
theorem session_resolution_witness :
    resolveSessionId ⟨none, "u-w2", none⟩ = "u-w2" ∧
    resolveSessionId ⟨some "", "u-w2", none⟩ = "u-w2" ∧
    resolveSessionId ⟨some "tok", "u-w2", none⟩ = "tok" ∧
    lookupS (ensureSession [] (resolveSessionId ⟨some "tok", "u-w2", none⟩))
      (resolveSessionId ⟨some "tok", "u-w2", none⟩) = some ⟨false⟩ ∧
    ensureSession [("tok", ⟨true⟩)] (resolveSessionId ⟨some "tok", "u-w2", none⟩)
      = [("tok", ⟨true⟩)] :=
  ⟨(session_resolution ⟨none, "u-w2", none⟩ []).1 rfl,
    (session_resolution ⟨some "", "u-w2", none⟩ []).2.1 rfl,
    (session_resolution ⟨some "tok", "u-w2", none⟩ []).2.2.1 "tok" rfl (by decide),
    (session_resolution ⟨some "tok", "u-w2", none⟩ []).2.2.2.1 rfl,
    (session_resolution ⟨some "tok", "u-w2", none⟩
      [("tok", ⟨true⟩)]).2.2.2.2 ⟨true⟩ rfl⟩

/-- A provider whose geocoding capability returns one fixed result; used to
exhibit a successful geocode round trip. -/
def geoProvOne : Provider :=
  ⟨fun _ => .ok [⟨"1 Test St", ⟨1, 2⟩, "pid-1"⟩], fun _ => .error .other⟩

/-- C3 counterexample: the empty address passes geocodeSchema.parse, the
call answers HTTP 200 when the provider has a result, and the empty address
is forwarded to the provider — refuting the claim that the call fails
whenever the address is empty. -/
theorem geocode_empty_address_counterexample :
    geocodeParse (.obj [("address", .str "")]) = .ok "" ∧
    (handleMcp ⟨none, "u-c3", some "KEY"⟩ geoProvOne []
        ⟨.str "callTool",
          .obj [("name", .str "geocode"),
                ("parameters", .obj [("address", .str "")])], .null⟩).status
      = 200 ∧
    (handleMcp ⟨none, "u-c3", some "KEY"⟩ geoProvOne []
        ⟨.str "callTool",
          .obj [("name", .str "geocode"),
                ("parameters", .obj [("address", .str "")])], .null⟩).calls
      = [.geocode ⟨"", some "KEY"⟩] :=
  ⟨rfl, rfl, rfl⟩

/-- C3 amended: geocode parameter validation accepts exactly the plain
objects whose address field is a string — a missing or non-text address is
rejected, but there is no non-emptiness check — and the accepted address is
forwarded verbatim in the single provider call of the geocode branch. -/
theorem geocode_validation (v : JSValue) (s : String) :
    (geocodeParse v = .ok s ↔
      ((∃ fs, v = .obj fs) ∧ jsGetField v "address" = .str s)) ∧
    (∀ env prov, (geocodeBranch env prov s).2 = [.geocode ⟨s, env.apiKey⟩]) := by
  constructor
  · constructor
    · intro h
      unfold geocodeParse at h
      cases v with
      | obj fs =>
        refine ⟨⟨fs, rfl⟩, ?_⟩
        rcases hg : jsGetField (.obj fs) "address" with _ | _ | b | q | s0 | es | gs <;>
          rw [hg] at h <;> simp at h
        rw [h]
      | undef => simp at h
      | null => simp at h
      | bool b => simp at h
      | num q => simp at h
      | str s0 => simp at h
      | arr es => simp at h
    · rintro ⟨⟨fs, rfl⟩, hg⟩
      unfold geocodeParse
      rw [hg]
  · intro env prov
    unfold geocodeBranch
    rcases hp : prov.geocode ⟨s, env.apiKey⟩ with e | rs
    · simp [hp]
    · cases rs <;> simp [hp]

/-- Witness for geocode_validation: a concrete accepted address and its
forwarding through the geocode branch. -/
theorem geocode_validation_witness :
    geocodeParse (.obj [("address", .str "221B Baker Street")])
      = .ok "221B Baker Street" ∧
    (geocodeBranch ⟨none, "u-w3", some "KEY"⟩ noProvider "221B Baker Street").2
      = [.geocode ⟨"221B Baker Street", some "KEY"⟩] :=
  ⟨(geocode_validation (.obj [("address", .str "221B Baker Street")])
      "221B Baker Street").1.mpr ⟨⟨_, rfl⟩, rfl⟩,
    (geocode_validation (.obj [("address", .str "221B Baker Street")])
      "221B Baker Street").2 ⟨none, "u-w3", some "KEY"⟩ noProvider⟩

/-- The dispatch on a string method outside the three recognized values
throws Error with a message naming the unknown method. -/
theorem dispatch_unknown_method (env : Env) (prov : Provider) (s1 : SessionMap)
    (sid : String) (ms : String) (pv i : JSValue)
    (h1 : ms ≠ "initialize") (h2 : ms ≠ "callTool") (h3 : ms ≠ "terminate") :
    dispatch env prov s1 sid ⟨.str ms, pv, i⟩ =
      (.error (.error ("Unknown method: " ++ ms)), []) := by
  unfold dispatch
  split <;> simp_all [jsToString]

/-- The dispatch on callTool with a string tool name outside the two
recognized tools throws Error with a message naming the unknown tool. -/
theorem dispatch_unknown_tool (env : Env) (prov : Provider) (s1 : SessionMap)
    (sid : String) (fs : List (String × JSValue)) (i : JSValue) (s : String)
    (hname : jsGetField (.obj fs) "name" = .str s)
    (h1 : s ≠ "geocode") (h2 : s ≠ "places-search") :
    dispatch env prov s1 sid ⟨.str "callTool", .obj fs, i⟩ =
      (.error (.error ("Unknown tool: " ++ s)), []) := by
  unfold dispatch
  simp only [hname]
  split <;> simp_all [jsToString]

/-- C9: routing is exhaustive over the recognized sets.  A callTool request
whose (string) tool name is neither geocode nor places-search answers HTTP
500 with an envelope naming the unknown tool; a request whose (string)
method is outside initialize, callTool, terminate answers HTTP 500 with an
envelope naming the unknown method. -/
theorem unknown_routing (env : Env) (prov : Provider) (m : SessionMap) :
    (∀ (fs : List (String × JSValue)) (i : JSValue) (s : String),
      jsGetField (.obj fs) "name" = .str s →
      s ≠ "geocode" → s ≠ "places-search" →
      (handleMcp env prov m ⟨.str "callTool", .obj fs, i⟩).status = 500 ∧
      (handleMcp env prov m ⟨.str "callTool", .obj fs, i⟩).envelope.body =
        .rpcError (-32603) ("Unknown tool: " ++ s)) ∧
    (∀ (ms : String) (pv i : JSValue),
      ms ≠ "initialize" → ms ≠ "callTool" → ms ≠ "terminate" →
      (handleMcp env prov m ⟨.str ms, pv, i⟩).status = 500 ∧
      (handleMcp env prov m ⟨.str ms, pv, i⟩).envelope.body =
        .rpcError (-32603) ("Unknown method: " ++ ms)) := by
  constructor
  · intro fs i s hname hg hp
    constructor <;>
      simp [handleMcp, dispatch_unknown_tool env prov _ _ fs i s hname hg hp,
        jsErrorMessage]
  · intro ms pv i h1 h2 h3
    constructor <;>
      simp [handleMcp, dispatch_unknown_method env prov _ _ ms pv i h1 h2 h3,
        jsErrorMessage]

/-- Witness for unknown_routing: the unknown tool "teleport" and the
unknown method "ping" at concrete inputs. -/
theorem unknown_routing_witness :
    (handleMcp ⟨none, "u-w9", none⟩ noProvider []
        ⟨.str "callTool", .obj [("name", .str "teleport")], .null⟩).status
      = 500 ∧
    (handleMcp ⟨none, "u-w9", none⟩ noProvider []
        ⟨.str "callTool", .obj [("name", .str "teleport")], .null⟩).envelope.body
      = .rpcError (-32603) ("Unknown tool: " ++ "teleport") ∧
    (handleMcp ⟨none, "u-w9", none⟩ noProvider []
        ⟨.str "ping", .null, .null⟩).status = 500 ∧
    (handleMcp ⟨none, "u-w9", none⟩ noProvider []
        ⟨.str "ping", .null, .null⟩).envelope.body
      = .rpcError (-32603) ("Unknown method: " ++ "ping") := by
  obtain ⟨ht, hm⟩ := unknown_routing ⟨none, "u-w9", none⟩ noProvider []
  obtain ⟨a, b⟩ :=
    ht [("name", .str "teleport")] .null "teleport" rfl (by decide) (by decide)
  obtain ⟨c, d⟩ := hm "ping" .null .null (by decide) (by decide) (by decide)
  exact ⟨a, b, c, d⟩

/-- C5: a places-search call whose parameters parse with location and
radius both omitted issues exactly one provider call, with location
{lat:0,lng:0}, radius 5000 and keyword equal to the query; the response is
HTTP 200 whose text summary counts places.length and whose structured data
is the projection of the same provider results, of the same length. -/
theorem places_defaults_and_count (env : Env) (prov : Provider)
    (m : SessionMap) (pv i : JSValue) (q : String) (places : List Place)
    (hparse : placesParse pv = .ok ⟨q, none, none⟩)
    (hprov : prov.placesNearby ⟨⟨0, 0⟩, 5000, q, env.apiKey⟩ = .ok places) :
    (handleMcp env prov m ⟨.str "callTool",
        .obj [("name", .str "places-search"), ("parameters", pv)], i⟩).calls
      = [.placesNearby ⟨⟨0, 0⟩, 5000, q, env.apiKey⟩] ∧
    (handleMcp env prov m ⟨.str "callTool",
        .obj [("name", .str "places-search"), ("parameters", pv)], i⟩).status
      = 200 ∧
    (handleMcp env prov m ⟨.str "callTool",
        .obj [("name", .str "places-search"), ("parameters", pv)], i⟩).envelope.body
      = .result (.toolContent
        [ .text ("Found " ++ toString places.length ++ " places"),
          .placesData (places.map fun p =>
            ⟨p.name, p.geometry_location, p.place_id, p.types, p.vicinity⟩) ]) ∧
    (places.map fun p : Place =>
      (⟨p.name, p.geometry_location, p.place_id, p.types, p.vicinity⟩ : Place)).length
      = places.length := by
  refine ⟨?_, ?_, ?_, by simp⟩ <;>
    simp [handleMcp, dispatch, jsGetField, jsGetField.lookupField, hparse,
      placesBranch, locationOrDefault, radiusOrDefault, hprov]

/-- A provider whose nearby-places capability returns two fixed places. -/
def placesProvTwo : Provider :=
  ⟨fun _ => .error .other,
   fun _ => .ok
     [ ⟨"Cafe A", some ⟨1, 2⟩, "pa", ["cafe"], "Near A"⟩,
       ⟨"Cafe B", none, "pb", ["cafe"], "Near B"⟩ ]⟩

/-- Witness for places_defaults_and_count: query coffee, nothing else
supplied, two places returned. -/
theorem places_defaults_witness :
    (handleMcp ⟨none, "u-w5", some "KEY"⟩ placesProvTwo []
        ⟨.str "callTool",
          .obj [("name", .str "places-search"),
                ("parameters", .obj [("query", .str "coffee")])], .null⟩).calls
      = [.placesNearby ⟨⟨0, 0⟩, 5000, "coffee", some "KEY"⟩] ∧
    (handleMcp ⟨none, "u-w5", some "KEY"⟩ placesProvTwo []
        ⟨.str "callTool",
          .obj [("name", .str "places-search"),
                ("parameters", .obj [("query", .str "coffee")])], .null⟩).status
      = 200 ∧
    (handleMcp ⟨none, "u-w5", some "KEY"⟩ placesProvTwo []
        ⟨.str "callTool",
          .obj [("name", .str "places-search"),
                ("parameters", .obj [("query", .str "coffee")])], .null⟩).envelope.body
      = .result (.toolContent
        [ .text "Found 2 places",
          .placesData
            [ ⟨"Cafe A", some ⟨1, 2⟩, "pa", ["cafe"], "Near A"⟩,
              ⟨"Cafe B", none, "pb", ["cafe"], "Near B"⟩ ] ]) := by
  obtain ⟨a, b, c, d⟩ := places_defaults_and_count ⟨none, "u-w5", some "KEY"⟩
    placesProvTwo [] (.obj [("query", .str "coffee")]) .null "coffee"
    [ ⟨"Cafe A", some ⟨1, 2⟩, "pa", ["cafe"], "Near A"⟩,
      ⟨"Cafe B", none, "pb", ["cafe"], "Near B"⟩ ] rfl rfl
  exact ⟨a, b, c⟩

/-- C6: a geocode call whose parameters parse, and for which the provider
returns the empty result list, answers HTTP 500 with the standard internal
error envelope (code -32603) carrying the message "No results found" — not
a 2xx response — after the single provider call was made. -/
theorem geocode_zero_results (env : Env) (prov : Provider) (m : SessionMap)
    (pv i : JSValue) (a : String)
    (hparse : geocodeParse pv = .ok a)
    (hprov : prov.geocode ⟨a, env.apiKey⟩ = .ok []) :
    (handleMcp env prov m ⟨.str "callTool",
        .obj [("name", .str "geocode"), ("parameters", pv)], i⟩).status = 500 ∧
    (handleMcp env prov m ⟨.str "callTool",
        .obj [("name", .str "geocode"), ("parameters", pv)], i⟩).envelope.body
      = .rpcError (-32603) "No results found" ∧
    (handleMcp env prov m ⟨.str "callTool",
        .obj [("name", .str "geocode"), ("parameters", pv)], i⟩).calls
      = [.geocode ⟨a, env.apiKey⟩] := by
  refine ⟨?_, ?_, ?_⟩ <;>
    simp [handleMcp, dispatch, jsGetField, jsGetField.lookupField, hparse,
      geocodeBranch, hprov, jsErrorMessage]

/-- A provider whose geocoding capability returns zero results. -/
def geoProvEmpty : Provider :=
  ⟨fun _ => .ok [], fun _ => .error .other⟩

/-- Witness for geocode_zero_results at the address Atlantis. -/
theorem geocode_zero_results_witness :
    (handleMcp ⟨none, "u-w6", some "KEY"⟩ geoProvEmpty []
        ⟨.str "callTool",
          .obj [("name", .str "geocode"),
                ("parameters", .obj [("address", .str "Atlantis")])], .null⟩).status
      = 500 ∧
    (handleMcp ⟨none, "u-w6", some "KEY"⟩ geoProvEmpty []
        ⟨.str "callTool",
          .obj [("name", .str "geocode"),
                ("parameters", .obj [("address", .str "Atlantis")])], .null⟩).envelope.body
      = .rpcError (-32603) "No results found" ∧
    (handleMcp ⟨none, "u-w6", some "KEY"⟩ geoProvEmpty []
        ⟨.str "callTool",
          .obj [("name", .str "geocode"),
                ("parameters", .obj [("address", .str "Atlantis")])], .null⟩).calls
      = [.geocode ⟨"Atlantis", some "KEY"⟩] := by
  obtain ⟨a, b, c⟩ := geocode_zero_results ⟨none, "u-w6", some "KEY"⟩
    geoProvEmpty [] (.obj [("address", .str "Atlantis")]) .null "Atlantis" rfl rfl
  exact ⟨a, b, c⟩

/-- C10: a places-search call whose parameters parse with radius supplied
as 0 issues its provider call with radius 5000, exactly as when the radius
is omitted (the || default fires on the falsy 0), whatever the provider
then returns. -/
theorem places_radius_zero (env : Env) (prov : Provider) (m : SessionMap)
    (pv i : JSValue) (q : String) (loc : Option LatLng)
    (hparse : placesParse pv = .ok ⟨q, loc, some 0⟩) :
    (handleMcp env prov m ⟨.str "callTool",
        .obj [("name", .str "places-search"), ("parameters", pv)], i⟩).calls
      = [.placesNearby ⟨locationOrDefault loc, 5000, q, env.apiKey⟩] ∧
    radiusOrDefault (some 0) = radiusOrDefault none := by
  refine ⟨?_, by simp [radiusOrDefault]⟩
  rcases hp : prov.placesNearby ⟨locationOrDefault loc, 5000, q, env.apiKey⟩
      with e | rs <;>
    simp [handleMcp, dispatch, jsGetField, jsGetField.lookupField, hparse,
      placesBranch, radiusOrDefault, hp]

/-- Witness for places_radius_zero: radius 0 supplied explicitly, the
provider call still carries radius 5000. -/
theorem places_radius_zero_witness :
    (handleMcp ⟨none, "u-w10", none⟩ noProvider []
        ⟨.str "callTool",
          .obj [("name", .str "places-search"),
                ("parameters",
                  .obj [("query", .str "coffee"), ("radius", .num 0)])], .null⟩).calls
      = [.placesNearby ⟨⟨0, 0⟩, 5000, "coffee", none⟩] ∧
    radiusOrDefault (some 0) = radiusOrDefault none := by
  obtain ⟨a, b⟩ := places_radius_zero ⟨none, "u-w10", none⟩ noProvider []
    (.obj [("query", .str "coffee"), ("radius", .num 0)]) .null "coffee" none rfl
  exact ⟨a, b⟩

end GmapsMcp
